import Mathlib

/-!
Verification development for the `Camera` component of the BIMsurfer viewer
(`src/viewer/camera.js`).

The camera state and every public operation of `camera.js` are embedded
shallowly over the real numbers.  The gl-matrix vector/matrix routines the
camera calls (`vec3.normalize`, `vec3.cross`, `mat4.fromRotation`,
`mat4.lookAt`, `mat3.invert`, ...) are not part of the repository sources
under `src/`; they are modelled from the specification's description of the
operations (rotation matrix about a normalized pivot, look-at matrix,
transposed inverse for normals), with the zero-length-vector guards of the
standard routines kept (a zero vector normalizes to the zero vector, a
singular 3x3 matrix is left unchanged by inversion).  `Math.sqrt`,
`Math.tan`, `Math.sin`, `Math.cos` are modelled by the exact real functions.

All matrices that `camera.js` ever applies to a `vec3` have a zero
translation column and last row (0,0,0,1), for which `vec3.transformMat4`
reduces to the action of the upper-left 3x3 block; rotation matrices are
therefore modelled as 3x3 matrices acting linearly.
-/

/-- A 3-component vector (`vec3` of gl-matrix), with exact real entries. -/
structure Vec3 where
  x : ℝ
  y : ℝ
  z : ℝ


/-- Componentwise addition (`vec3.add`). -/
def vadd (a b : Vec3) : Vec3 := ⟨a.x + b.x, a.y + b.y, a.z + b.z⟩

/-- Componentwise subtraction (`vec3.subtract out a b = a - b`). -/
def vsub (a b : Vec3) : Vec3 := ⟨a.x - b.x, a.y - b.y, a.z - b.z⟩

/-- Scalar multiple (`vec3.scale`). -/
def vscale (k : ℝ) (a : Vec3) : Vec3 := ⟨k * a.x, k * a.y, k * a.z⟩

/-- Dot product (`vec3.dot`). -/
def vdot (a b : Vec3) : ℝ := a.x * b.x + a.y * b.y + a.z * b.z

/-- Cross product (`vec3.cross`). -/
def vcross (a b : Vec3) : Vec3 :=
  ⟨a.y * b.z - a.z * b.y, a.z * b.x - a.x * b.z, a.x * b.y - a.y * b.x⟩

/-- Modelled from the spec: the gl-matrix routine `vec3.normalize` used by
`camera.js` (not under `src/`).  A nonzero vector is scaled to unit length;
the zero vector is left as the zero vector (the routine multiplies by zero
when the squared length is not positive). -/
noncomputable def vnormalize (v : Vec3) : Vec3 :=
  if 0 < v.x ^ 2 + v.y ^ 2 + v.z ^ 2 then
    vscale (1 / Real.sqrt (v.x ^ 2 + v.y ^ 2 + v.z ^ 2)) v
  else ⟨0, 0, 0⟩

/-- A 3x3 matrix, stored row by row (`m01` is row 0, column 1). -/
structure Mat3 where
  m00 : ℝ
  m01 : ℝ
  m02 : ℝ
  m10 : ℝ
  m11 : ℝ
  m12 : ℝ
  m20 : ℝ
  m21 : ℝ
  m22 : ℝ


/-- Matrix action on a vector (the effect of `vec3.transformMat4` for the
matrices built by `camera.js`, all of which have zero translation and last
row (0,0,0,1)). -/
def m3apply (m : Mat3) (v : Vec3) : Vec3 :=
  ⟨m.m00 * v.x + m.m01 * v.y + m.m02 * v.z,
   m.m10 * v.x + m.m11 * v.y + m.m12 * v.z,
   m.m20 * v.x + m.m21 * v.y + m.m22 * v.z⟩

/-- The Rodrigues rotation matrix with cosine `c`, sine `s`, about the axis
`n` (the 3x3 block produced by gl-matrix `mat4.fromRotation` after the axis
has been normalized). -/
def rodrigues (c s : ℝ) (n : Vec3) : Mat3 :=
  ⟨n.x * n.x * (1 - c) + c, n.x * n.y * (1 - c) - n.z * s, n.x * n.z * (1 - c) + n.y * s,
   n.y * n.x * (1 - c) + n.z * s, n.y * n.y * (1 - c) + c, n.y * n.z * (1 - c) - n.x * s,
   n.z * n.x * (1 - c) - n.y * s, n.z * n.y * (1 - c) + n.x * s, n.z * n.z * (1 - c) + c⟩

/-- Modelled from the spec: `mat4.fromRotation` (gl-matrix, not under
`src/`), per spec section 4.3 a rotation matrix from an angle in radians
about the normalized pivot axis. -/
noncomputable def fromRotationM (rad : ℝ) (axis : Vec3) : Mat3 :=
  rodrigues (Real.cos rad) (Real.sin rad) (vnormalize axis)

/-- The identity 3x3 matrix (`mat3.create`). -/
def mat3Id : Mat3 := ⟨1, 0, 0, 0, 1, 0, 0, 0, 1⟩

/-- Determinant of a 3x3 matrix (as computed by `mat3.invert`). -/
def det3 (m : Mat3) : ℝ :=
  m.m00 * (m.m11 * m.m22 - m.m12 * m.m21)
    - m.m01 * (m.m10 * m.m22 - m.m12 * m.m20)
    + m.m02 * (m.m10 * m.m21 - m.m11 * m.m20)

/-- Modelled from the spec: `mat3.invert` (gl-matrix, not under `src/`).
Inverse of a 3x3 matrix; a singular matrix is returned unchanged (the
routine returns null without writing its output in that case, leaving the
uninverted copy in place). -/
noncomputable def invert3 (m : Mat3) : Mat3 :=
  if det3 m = 0 then m
  else
    ⟨(m.m11 * m.m22 - m.m12 * m.m21) / det3 m,
     (m.m02 * m.m21 - m.m01 * m.m22) / det3 m,
     (m.m01 * m.m12 - m.m02 * m.m11) / det3 m,
     (m.m12 * m.m20 - m.m10 * m.m22) / det3 m,
     (m.m00 * m.m22 - m.m02 * m.m20) / det3 m,
     (m.m02 * m.m10 - m.m00 * m.m12) / det3 m,
     (m.m10 * m.m21 - m.m11 * m.m20) / det3 m,
     (m.m01 * m.m20 - m.m00 * m.m21) / det3 m,
     (m.m00 * m.m11 - m.m01 * m.m10) / det3 m⟩

/-- Transpose of a 3x3 matrix (`mat3.transpose`). -/
def transpose3 (m : Mat3) : Mat3 :=
  ⟨m.m00, m.m10, m.m20, m.m01, m.m11, m.m21, m.m02, m.m12, m.m22⟩

/-- A 4x4 matrix stored in gl-matrix column-major order: `e0`..`e3` are the
first column, `e12`..`e14` the translation column, `e15` the corner. -/
structure Mat4 where
  e0 : ℝ
  e1 : ℝ
  e2 : ℝ
  e3 : ℝ
  e4 : ℝ
  e5 : ℝ
  e6 : ℝ
  e7 : ℝ
  e8 : ℝ
  e9 : ℝ
  e10 : ℝ
  e11 : ℝ
  e12 : ℝ
  e13 : ℝ
  e14 : ℝ
  e15 : ℝ


/-- The identity 4x4 matrix (`mat4.create`). -/
def mat4Id : Mat4 := ⟨1, 0, 0, 0, 0, 1, 0, 0, 0, 0, 1, 0, 0, 0, 0, 1⟩

/-- Modelled from the spec: `mat4.lookAt` (gl-matrix, not under `src/`),
per spec section 4.1 the look-at matrix from eye, target and up.  The basis
is z = normalize(eye - target), x = normalize(up x z), y = normalize(z x x),
with the translation column holding the negated dot products with `eye`. -/
noncomputable def lookAtM (eye target up : Vec3) : Mat4 :=
  let z := vnormalize (vsub eye target)
  let x := vnormalize (vcross up z)
  let y := vnormalize (vcross z x)
  ⟨x.x, y.x, z.x, 0,
   x.y, y.y, z.y, 0,
   x.z, y.z, z.z, 0,
   -(vdot x eye), -(vdot y eye), -(vdot z eye), 1⟩

/-- Left-multiplication of a 4x4 matrix by the uniform scale matrix
diag(ws, ws, ws, 1), as `_build` does with `mat4.scale`/`mat4.multiply`:
the first three rows are scaled, the last row is kept. -/
def scaleRowsM (ws : ℝ) (m : Mat4) : Mat4 :=
  ⟨ws * m.e0, ws * m.e1, ws * m.e2, m.e3,
   ws * m.e4, ws * m.e5, ws * m.e6, m.e7,
   ws * m.e8, ws * m.e9, ws * m.e10, m.e11,
   ws * m.e12, ws * m.e13, ws * m.e14, m.e15⟩

/-- The upper-left 3x3 block of a 4x4 matrix (`mat3.fromMat4`). -/
def mat3FromMat4 (m : Mat4) : Mat3 :=
  ⟨m.e0, m.e4, m.e8, m.e1, m.e5, m.e9, m.e2, m.e6, m.e10⟩

/-- The view matrix `_build` stores: the scale matrix composed with the
look-at matrix (`camera.js` lines 52-61). -/
noncomputable def buildViewMatrix (eye target up : Vec3) (ws : ℝ) : Mat4 :=
  scaleRowsM ws (lookAtM eye target up)

/-- The view-normal matrix `_build` stores: transposed inverse of the
upper-left 3x3 block of the view matrix (`camera.js` lines 62-64). -/
noncomputable def buildNormalMatrix (viewM : Mat4) : Mat3 :=
  transpose3 (invert3 (mat3FromMat4 viewM))

/-- The world-axis array `[rightX, rightY, rightZ, upX, upY, upZ,
forwardX, forwardY, forwardZ]` (the nine entries of `_worldAxis`). -/
structure Axis9 where
  a0 : ℝ
  a1 : ℝ
  a2 : ℝ
  a3 : ℝ
  a4 : ℝ
  a5 : ℝ
  a6 : ℝ
  a7 : ℝ
  a8 : ℝ

/-- The default world axis `[1, 0, 0, 0, 1, 0, 0, 0, 1]`. -/
def defaultAxis9 : Axis9 := ⟨1, 0, 0, 0, 1, 0, 0, 0, 1⟩

/-- An axis-aligned bounding box `[minX, minY, minZ, maxX, maxY, maxZ]`
(six floats, as consumed by `viewFit`). -/
structure Aabb where
  min0 : ℝ
  min1 : ℝ
  min2 : ℝ
  max0 : ℝ
  max1 : ℝ
  max2 : ℝ

/-- The currently selected projection strategy: `_projection` points at
either the pre-constructed `Perspective` or the pre-constructed
`Orthographic` instance. -/
inductive ProjKind where
  | perspective
  | orthographic
deriving DecidableEq

/-- The token accepted by the `projectionType` setter for perspective. -/
def perspToken : String := "perspective"

/-- The token accepted by the `projectionType` setter for orthographic. -/
def orthoToken : String := "orthographic"

/-- The warning text logged for an unsupported `projectionType` token. -/
def unsupportedMsg (t : String) : String := "Unsupported projectionType: " ++ t

/-- The full mutable state of a `Camera` plus the collaborating viewer
state it touches.  `viewerDirty` is the owning viewer's needs-redraw flag
(`viewer.dirty`), `modelBounds` the viewer's scene bounds used as the
default for `viewFit`; `perspProj`/`orthoProj` are the projection matrices
owned by the two external projection strategies (never mutated by the
camera); `log` records console warnings. -/
structure CameraState where
  eye : Vec3
  target : Vec3
  up : Vec3
  worldScale : ℝ
  worldAxis : Axis9
  worldUp : Vec3
  worldRight : Vec3
  worldForward : Vec3
  gimbalLock : Bool
  constrainPitch : Bool
  projection : ProjKind
  dirty : Bool
  viewMatrix : Mat4
  viewNormalMatrix : Mat3
  viewerDirty : Bool
  modelBounds : Aabb
  perspProj : Mat4
  orthoProj : Mat4
  log : List String

/-- The state built by the constructor (`camera.js` lines 18-45), given the
owning viewer's scene bounds, the two external projection matrices, and the
viewer's initial needs-redraw flag. -/
def initCamera (mb : Aabb) (pm om : Mat4) (vd : Bool) : CameraState :=
  { eye := ⟨0, 0, -10⟩
    target := ⟨0, 0, 0⟩
    up := ⟨0, 1, 0⟩
    worldScale := 1
    worldAxis := defaultAxis9
    worldUp := ⟨0, 1, 0⟩
    worldRight := ⟨1, 0, 0⟩
    worldForward := ⟨0, 0, -1⟩
    gimbalLock := true
    constrainPitch := true
    projection := ProjKind.perspective
    dirty := true
    viewMatrix := mat4Id
    viewNormalMatrix := mat3Id
    viewerDirty := vd
    modelBounds := mb
    perspProj := pm
    orthoProj := om
    log := [] }

/-- `_setDirty` (`camera.js` lines 47-50): sets the camera's dirty flag and
the owning viewer's needs-redraw flag. -/
def setDirtyS (s : CameraState) : CameraState :=
  { s with dirty := true, viewerDirty := true }

/-- `_build` (`camera.js` lines 52-67): when dirty, rebuild the view and
view-normal matrices from the current eye/target/up/worldScale and clear
the flag; otherwise do nothing. -/
noncomputable def buildOp (s : CameraState) : CameraState :=
  if s.dirty then
    { s with
      viewMatrix := buildViewMatrix s.eye s.target s.up s.worldScale
      viewNormalMatrix := buildNormalMatrix (buildViewMatrix s.eye s.target s.up s.worldScale)
      dirty := false }
  else s

/-- The `viewMatrix` getter (`camera.js` lines 93-98): rebuild if dirty,
then return the cached matrix. -/
noncomputable def readViewMatrix (s : CameraState) : Mat4 :=
  (buildOp s).viewMatrix

/-- The `viewNormalMatrix` getter (`camera.js` lines 107-112). -/
noncomputable def readViewNormalMatrix (s : CameraState) : Mat3 :=
  (buildOp s).viewNormalMatrix

/-- The `projMatrix` getter (`camera.js` lines 119-121): delegates to the
currently selected projection strategy. -/
def readProjMatrix (s : CameraState) : Mat4 :=
  match s.projection with
  | ProjKind.perspective => s.perspProj
  | ProjKind.orthographic => s.orthoProj

/-- Modelled from the spec: the `projectionType` getter (`camera.js` lines
146-148) returns `this._projection.type`; the `type` fields live in the
external `Perspective`/`Orthographic` collaborators (not under `src/`),
which per spec section 6 report the string enum for their kind. -/
def readProjectionType (s : CameraState) : String :=
  match s.projection with
  | ProjKind.perspective => perspToken
  | ProjKind.orthographic => orthoToken

/-- The `worldScale` setter (`camera.js` lines 83-86):
`this._worldScale = worldScale || 1.0` (a zero input falls back to 1.0),
then `_setDirty`. -/
noncomputable def setWorldScale (w : ℝ) (s : CameraState) : CameraState :=
  setDirtyS { s with worldScale := if w = 0 then 1 else w }

/-- The `eye` setter (`camera.js` lines 163-166); a missing argument falls
back to the default `[0, 0, -10]`. -/
def setEye (v : Option Vec3) (s : CameraState) : CameraState :=
  setDirtyS { s with eye := v.getD ⟨0, 0, -10⟩ }

/-- The `target` setter (`camera.js` lines 180-183). -/
def setTarget (v : Option Vec3) (s : CameraState) : CameraState :=
  setDirtyS { s with target := v.getD ⟨0, 0, 0⟩ }

/-- The `up` setter (`camera.js` lines 197-200). -/
def setUp (v : Option Vec3) (s : CameraState) : CameraState :=
  setDirtyS { s with up := v.getD ⟨0, 1, 0⟩ }

/-- The `gimbalLock` setter (`camera.js` lines 217-219); does not dirty. -/
def setGimbalLock (b : Bool) (s : CameraState) : CameraState :=
  { s with gimbalLock := b }

/-- The `constrainPitch` setter (`camera.js` lines 240-242); does not
dirty. -/
def setConstrainPitch (b : Bool) (s : CameraState) : CameraState :=
  { s with constrainPitch := b }

/-- The `worldAxis` setter (`camera.js` lines 262-274): stores the array
(default on a missing argument) and recomputes the cached right/up/forward
slices, then `_setDirty`. -/
def setWorldAxis (a : Option Axis9) (s : CameraState) : CameraState :=
  let w := a.getD defaultAxis9
  setDirtyS
    { s with
      worldAxis := w
      worldRight := ⟨w.a0, w.a1, w.a2⟩
      worldUp := ⟨w.a3, w.a4, w.a5⟩
      worldForward := ⟨w.a6, w.a7, w.a8⟩ }

/-- The `projectionType` setter (`camera.js` lines 128-139): the two
recognized tokens select the corresponding pre-constructed strategy; any
other token only logs a warning. -/
def setProjectionType (t : String) (s : CameraState) : CameraState :=
  if t = perspToken then { s with projection := ProjKind.perspective }
  else if t = orthoToken then { s with projection := ProjKind.orthographic }
  else { s with log := s.log ++ [unsupportedMsg t] }

/-- `orbitYaw` (`camera.js` lines 321-328): rotate eye and up about the
target, pivoting about the world up (gimbal lock) or the camera up. -/
noncomputable def orbitYawOp (degrees : ℝ) (s : CameraState) : CameraState :=
  let targetToEye := vsub s.eye s.target
  let rot := fromRotationM (degrees * 0.0174532925)
    (if s.gimbalLock then s.worldUp else s.up)
  setDirtyS
    { s with
      eye := vadd s.target (m3apply rot targetToEye)
      up := m3apply rot s.up }

/-- `orbitPitch` (`camera.js` lines 335-352): rotate eye and up about the
target, pivoting about cross(normalize(eye - target), normalize(up)); with
`constrainPitch`, reject the whole operation when
dot(new up, world up) / 0.0174532925 < 1. -/
noncomputable def orbitPitchOp (degrees : ℝ) (s : CameraState) : CameraState :=
  let targetToEye := vsub s.eye s.target
  let axis := vcross (vnormalize targetToEye) (vnormalize s.up)
  let rot := fromRotationM (degrees * 0.0174532925) axis
  let newUp := m3apply rot s.up
  if s.constrainPitch ∧ vdot newUp s.worldUp / 0.0174532925 < 1 then s
  else
    setDirtyS
      { s with
        up := newUp
        eye := vadd s.target (m3apply rot targetToEye) }

/-- `yaw` (`camera.js` lines 359-368): rotate the target about the eye,
pivoting about the world up (gimbal lock) or the camera up; `up` is
co-rotated only under gimbal lock. -/
noncomputable def yawOp (degrees : ℝ) (s : CameraState) : CameraState :=
  let eyeToTarget := vsub s.target s.eye
  let rot := fromRotationM (degrees * 0.0174532925)
    (if s.gimbalLock then s.worldUp else s.up)
  setDirtyS
    { s with
      target := vadd s.eye (m3apply rot eyeToTarget)
      up := if s.gimbalLock then m3apply rot s.up else s.up }

/-- `pitch` (`camera.js` lines 375-392): rotate the target about the eye,
pivoting about cross(normalize(target - eye), normalize(up)); with
`constrainPitch`, reject the whole operation when
dot(new up, world up) / 0.0174532925 < 1. -/
noncomputable def pitchOp (degrees : ℝ) (s : CameraState) : CameraState :=
  let eyeToTarget := vsub s.target s.eye
  let axis := vcross (vnormalize eyeToTarget) (vnormalize s.up)
  let rot := fromRotationM (degrees * 0.0174532925) axis
  let newUp := m3apply rot s.up
  if s.constrainPitch ∧ vdot newUp s.worldUp / 0.0174532925 < 1 then s
  else
    setDirtyS
      { s with
        up := newUp
        target := vadd s.eye (m3apply rot eyeToTarget) }

/-- `pan` (`camera.js` lines 399-426): translate eye and target by the sum
of contributions along the camera-local right, up and view axes.  The
source's component-2 branch reads the scratch vector that holds
eye - target, which the component-1 branch has overwritten with the scaled
up direction; `e2t2` reproduces that aliasing. -/
noncomputable def panOp (p : Vec3) (s : CameraState) : CameraState :=
  let e2t := vsub s.eye s.target
  let acc1 :=
    if p.x = 0 then (⟨0, 0, 0⟩ : Vec3)
    else vscale p.x (vcross (vnormalize e2t) (vnormalize s.up))
  let e2t2 := if p.y = 0 then e2t else vscale p.y (vnormalize s.up)
  let acc2 := if p.y = 0 then acc1 else vadd acc1 (vscale p.y (vnormalize s.up))
  let acc3 := if p.z = 0 then acc2 else vadd acc2 (vscale p.z (vnormalize e2t2))
  setDirtyS { s with eye := vadd s.eye acc3, target := vadd s.target acc3 }

/-- `zoom` (`camera.js` lines 433-443): translate both eye and target by
delta times the normalized (eye - target) vector. -/
noncomputable def zoomOp (delta : ℝ) (s : CameraState) : CameraState :=
  let v := vscale delta (vnormalize (vsub s.eye s.target))
  setDirtyS { s with eye := vadd s.eye v, target := vadd s.target v }

/-- `viewFit` (`camera.js` lines 451-469): target moves to the box center,
eye is placed along the normalized pre-fit (eye - target) direction at
distance |diagonal / tan(fitFOV * 0.0174532925)| from the new target.
Missing arguments fall back to the viewer's scene bounds and 45.  Note:
this method never calls `_setDirty` and writes the private fields
directly, so the dirty flag is left untouched. -/
noncomputable def viewFitOp (ab : Option Aabb) (fov : Option ℝ) (s : CameraState) :
    CameraState :=
  let bb := ab.getD s.modelBounds
  let f : ℝ := match fov with
    | none => 45
    | some v => if v = 0 then 45 else v
  let dir := vnormalize (vsub s.eye s.target)
  let diagonal := Real.sqrt ((bb.max0 - bb.min0) ^ 2 + (bb.max1 - bb.min1) ^ 2 +
    (bb.max2 - bb.min2) ^ 2)
  let center : Vec3 := ⟨(bb.max0 + bb.min0) / 2, (bb.max1 + bb.min1) / 2,
    (bb.max2 + bb.min2) / 2⟩
  let sca := |diagonal / Real.tan (f * 0.0174532925)|
  { s with target := center, eye := vadd center (vscale sca dir) }

/-- A public operation on the camera, used to describe arbitrary call
sequences. -/
inductive Op where
  | setWorldScale (w : ℝ)
  | setEye (v : Option Vec3)
  | setTarget (v : Option Vec3)
  | setUp (v : Option Vec3)
  | setGimbalLock (b : Bool)
  | setConstrainPitch (b : Bool)
  | setWorldAxis (a : Option Axis9)
  | setProjectionType (t : String)
  | readViewMatrix
  | readViewNormalMatrix
  | orbitYaw (d : ℝ)
  | orbitPitch (d : ℝ)
  | yaw (d : ℝ)
  | pitch (d : ℝ)
  | pan (p : Vec3)
  | zoom (d : ℝ)
  | viewFit (ab : Option Aabb) (fov : Option ℝ)

/-- The state transition of one public operation (matrix getters perform
their lazy rebuild as a state change). -/
noncomputable def applyOp (o : Op) (s : CameraState) : CameraState :=
  match o with
  | Op.setWorldScale w => setWorldScale w s
  | Op.setEye v => setEye v s
  | Op.setTarget v => setTarget v s
  | Op.setUp v => setUp v s
  | Op.setGimbalLock b => setGimbalLock b s
  | Op.setConstrainPitch b => setConstrainPitch b s
  | Op.setWorldAxis a => setWorldAxis a s
  | Op.setProjectionType t => setProjectionType t s
  | Op.readViewMatrix => buildOp s
  | Op.readViewNormalMatrix => buildOp s
  | Op.orbitYaw d => orbitYawOp d s
  | Op.orbitPitch d => orbitPitchOp d s
  | Op.yaw d => yawOp d s
  | Op.pitch d => pitchOp d s
  | Op.pan p => panOp p s
  | Op.zoom d => zoomOp d s
  | Op.viewFit ab fov => viewFitOp ab fov s

/-- Application of a sequence of public operations, first element first. -/
noncomputable def applyOps (l : List Op) (s : CameraState) : CameraState :=
  match l with
  | [] => s
  | o :: rest => applyOps rest (applyOp o s)

/-- A rotation call (plus the two flag setters), as quantified over by the
orthogonality-preservation property of spec section 8. -/
inductive RotOp where
  | orbitYaw (d : ℝ)
  | orbitPitch (d : ℝ)
  | yaw (d : ℝ)
  | pitch (d : ℝ)
  | setGimbalLock (b : Bool)
  | setConstrainPitch (b : Bool)

/-- The state transition of one rotation call. -/
noncomputable def applyRot (r : RotOp) (s : CameraState) : CameraState :=
  match r with
  | RotOp.orbitYaw d => orbitYawOp d s
  | RotOp.orbitPitch d => orbitPitchOp d s
  | RotOp.yaw d => yawOp d s
  | RotOp.pitch d => pitchOp d s
  | RotOp.setGimbalLock b => setGimbalLock b s
  | RotOp.setConstrainPitch b => setConstrainPitch b s

/-- Application of a sequence of rotation calls, first element first. -/
noncomputable def applyRots (l : List RotOp) (s : CameraState) : CameraState :=
  match l with
  | [] => s
  | r :: rest => applyRots rest (applyRot r s)

/-- Subtracting the translation point again recovers the rotated vector:
`(a + b) - a = b` componentwise. -/
theorem vsub_vadd_left (a b : Vec3) : vsub (vadd a b) a = b := by
  cases a; cases b; simp [vsub, vadd]

/-- `a - (a + w) = (-1) * w` componentwise. -/
theorem vsub_vadd_right (a w : Vec3) : vsub a (vadd a w) = vscale (-1) w := by
  cases a; cases w; simp only [vsub, vadd, vscale, Vec3.mk.injEq]
  refine ⟨by ring, by ring, by ring⟩

/-- The dot product pulls scalar factors out of its right argument. -/
theorem vdot_vscale_right (k : ℝ) (u v : Vec3) :
    vdot u (vscale k v) = k * vdot u v := by
  cases u; cases v; simp [vdot, vscale]; ring

/-- Swapping the orientation of a difference flips the sign of a dot
product with it. -/
theorem vdot_vsub_swap (u a b : Vec3) :
    vdot u (vsub a b) = -vdot u (vsub b a) := by
  cases u; cases a; cases b; simp [vdot, vsub]; ring

/-- A Rodrigues matrix about a unit axis preserves dot products (with
cos^2 + sin^2 = 1). -/
theorem rodrigues_vdot (c s : ℝ) (n : Vec3)
    (hn : n.x ^ 2 + n.y ^ 2 + n.z ^ 2 = 1) (hcs : c ^ 2 + s ^ 2 = 1)
    (u v : Vec3) :
    vdot (m3apply (rodrigues c s n) u) (m3apply (rodrigues c s n) v) = vdot u v := by
  obtain ⟨nx, ny, nz⟩ := n
  obtain ⟨ux, uy, uz⟩ := u
  obtain ⟨vx, vy, vz⟩ := v
  simp only [rodrigues, m3apply, vdot] at *
  linear_combination
    (s ^ 2 * (ux * vx + uy * vy + uz * vz) +
      (1 - c) ^ 2 * (nx * ux + ny * uy + nz * uz) * (nx * vx + ny * vy + nz * vz)) * hn +
    ((ux * vx + uy * vy + uz * vz) -
      (nx * ux + ny * uy + nz * uz) * (nx * vx + ny * vy + nz * vz)) * hcs

/-- A Rodrigues matrix about any multiple of `u` maps vectors orthogonal
to `u` to vectors orthogonal to `u` (no unit or trigonometric hypotheses
needed). -/
theorem rodrigues_axis_vdot (c s L : ℝ) (u v : Vec3) (h : vdot u v = 0) :
    vdot u (m3apply (rodrigues c s (vscale L u)) v) = 0 := by
  obtain ⟨ux, uy, uz⟩ := u
  obtain ⟨vx, vy, vz⟩ := v
  simp only [rodrigues, m3apply, vdot, vscale] at *
  linear_combination (c + (1 - c) * L ^ 2 * (ux ^ 2 + uy ^ 2 + uz ^ 2)) * h

/-- The result of `vnormalize` is always a scalar multiple of its input. -/
theorem vnormalize_eq_vscale (v : Vec3) : ∃ L : ℝ, vnormalize v = vscale L v := by
  unfold vnormalize
  split
  · exact ⟨1 / Real.sqrt (v.x ^ 2 + v.y ^ 2 + v.z ^ 2), rfl⟩
  · refine ⟨0, ?_⟩
    cases v; simp [vscale]

/-- The matrix of `fromRotationM` maps a pair of orthogonal vectors to a
pair of orthogonal vectors, for every pivot axis: a nonzero axis is
normalized so the matrix is a proper rotation, and a zero axis degenerates
to cos times the identity, which scales both vectors. -/
theorem fromRotationM_vdot_zero (rad : ℝ) (axis u v : Vec3) (h : vdot u v = 0) :
    vdot (m3apply (fromRotationM rad axis) u) (m3apply (fromRotationM rad axis) v) = 0 := by
  unfold fromRotationM vnormalize
  split
  · next hpos =>
    set S := axis.x ^ 2 + axis.y ^ 2 + axis.z ^ 2 with hS
    have hsq : Real.sqrt S ^ 2 = S := Real.sq_sqrt (le_of_lt hpos)
    have hsne : Real.sqrt S ≠ 0 := by
      intro h0
      rw [h0] at hsq
      simp at hsq
      exact absurd hsq.symm (ne_of_gt hpos)
    have hn : (vscale (1 / Real.sqrt S) axis).x ^ 2 + (vscale (1 / Real.sqrt S) axis).y ^ 2 +
        (vscale (1 / Real.sqrt S) axis).z ^ 2 = 1 := by
      obtain ⟨ax, ay, az⟩ := axis
      simp only [vscale] at *
      field_simp
    rw [rodrigues_vdot _ _ _ hn (Real.cos_sq_add_sin_sq rad) u v]
    exact h
  · obtain ⟨ux, uy, uz⟩ := u
    obtain ⟨vx, vy, vz⟩ := v
    simp only [rodrigues, m3apply, vdot] at *
    linear_combination Real.cos rad ^ 2 * h

/-- Rotating a vector orthogonal to `u` about the axis `u` itself keeps it
orthogonal to `u` (the gimbal-free `yaw` case, where `up` is the pivot and
is not co-rotated). -/
theorem fromRotationM_axis_vdot_zero (rad : ℝ) (u v : Vec3) (h : vdot u v = 0) :
    vdot u (m3apply (fromRotationM rad u) v) = 0 := by
  obtain ⟨L, hL⟩ := vnormalize_eq_vscale u
  unfold fromRotationM
  rw [hL]
  exact rodrigues_axis_vdot (Real.cos rad) (Real.sin rad) L u v h

/-- The frame invariant of spec section 8: `up` is orthogonal to the view
vector (eye - target). -/
def orthoFrame (s : CameraState) : Prop :=
  vdot s.up (vsub s.eye s.target) = 0

/-- `orbitYaw` preserves orthogonality of `up` and (eye - target): both are
transformed by the same rotation matrix. -/
theorem orthoFrame_orbitYaw (d : ℝ) (s : CameraState) (h : orthoFrame s) :
    orthoFrame (orbitYawOp d s) := by
  unfold orthoFrame at *
  simp only [orbitYawOp, setDirtyS]
  rw [vsub_vadd_left]
  exact fromRotationM_vdot_zero _ _ _ _ h

/-- `orbitPitch` preserves orthogonality: a rejected pitch leaves the state
unchanged, a committed pitch applies the same rotation to both vectors. -/
theorem orthoFrame_orbitPitch (d : ℝ) (s : CameraState) (h : orthoFrame s) :
    orthoFrame (orbitPitchOp d s) := by
  unfold orthoFrame at *
  simp only [orbitPitchOp, setDirtyS]
  split
  · exact h
  · simp only
    rw [vsub_vadd_left]
    exact fromRotationM_vdot_zero _ _ _ _ h

/-- `yaw` preserves orthogonality: under gimbal lock both vectors rotate
together; without it, the rotation pivots about `up` itself, and a
rotation about `up` keeps vectors orthogonal to `up` orthogonal. -/
theorem orthoFrame_yaw (d : ℝ) (s : CameraState) (h : orthoFrame s) :
    orthoFrame (yawOp d s) := by
  unfold orthoFrame at *
  simp only [yawOp, setDirtyS]
  have he2t : vdot s.up (vsub s.target s.eye) = 0 := by
    rw [vdot_vsub_swap]
    simp [h]
  by_cases hg : s.gimbalLock = true
  · simp only [hg, eq_self_iff_true, if_true]
    rw [vsub_vadd_right, vdot_vscale_right]
    rw [fromRotationM_vdot_zero _ _ _ _ he2t]
    ring
  · simp only [hg, Bool.not_eq_true, if_false] at *
    simp only [hg, Bool.false_eq_true, if_false]
    rw [vsub_vadd_right, vdot_vscale_right]
    rw [fromRotationM_axis_vdot_zero _ _ _ he2t]
    ring

/-- `pitch` preserves orthogonality, exactly as `orbitPitch` does. -/
theorem orthoFrame_pitch (d : ℝ) (s : CameraState) (h : orthoFrame s) :
    orthoFrame (pitchOp d s) := by
  unfold orthoFrame at *
  simp only [pitchOp, setDirtyS]
  split
  · exact h
  · simp only
    rw [vsub_vadd_right, vdot_vscale_right]
    have he2t : vdot s.up (vsub s.target s.eye) = 0 := by
      rw [vdot_vsub_swap]
      simp [h]
    rw [fromRotationM_vdot_zero _ _ _ _ he2t]
    ring

/-- Every single rotation call (and flag toggle) preserves the
orthogonality invariant. -/
theorem orthoFrame_applyRot (r : RotOp) (s : CameraState) (h : orthoFrame s) :
    orthoFrame (applyRot r s) := by
  cases r with
  | orbitYaw d => exact orthoFrame_orbitYaw d s h
  | orbitPitch d => exact orthoFrame_orbitPitch d s h
  | yaw d => exact orthoFrame_yaw d s h
  | pitch d => exact orthoFrame_pitch d s h
  | setGimbalLock b => exact h
  | setConstrainPitch b => exact h

/-- A concrete camera as built by the constructor, with zero scene bounds,
identity external projection matrices and a clear viewer redraw flag; used
for concrete scenarios. -/
def baseCam : CameraState := initCamera ⟨0, 0, 0, 0, 0, 0⟩ mat4Id mat4Id false

/-- C3: starting from any camera state whose `up` is orthogonal to
(eye - target), every sequence of `orbitYaw`/`orbitPitch`/`yaw`/`pitch`
calls (with any angles, and any settings of the gimbal-lock and
pitch-constraint flags along the way) keeps `up` exactly orthogonal to
(eye - target) under exact real arithmetic. -/
theorem claim_C3_rotations_preserve_orthogonality (s : CameraState) (l : List RotOp)
    (h : orthoFrame s) : orthoFrame (applyRots l s) := by
  induction l generalizing s with
  | nil => exact h
  | cons r rest ih => exact ih (applyRot r s) (orthoFrame_applyRot r s h)

/-- Witness for C3: the freshly constructed camera satisfies the
orthogonality hypothesis, and a yaw of 90 degrees keeps it. -/
theorem claim_C3_rotations_preserve_orthogonality_witness :
    orthoFrame baseCam ∧ orthoFrame (applyRots [RotOp.yaw 90] baseCam) := by
  have hbase : orthoFrame baseCam := by
    simp [orthoFrame, baseCam, initCamera, vdot, vsub]
  exact ⟨hbase, claim_C3_rotations_preserve_orthogonality baseCam [RotOp.yaw 90] hbase⟩

/-- C7: for every camera state and angle, `yaw` keeps the eye fixed,
maps (target - eye) by the rotation matrix of `d` degrees about `worldUp`
(gimbal lock on) or about the current `up` (gimbal lock off), and applies
that same matrix to `up` exactly when gimbal lock is on, leaving `up`
unchanged otherwise. -/
theorem claim_C7_yaw_pivot_and_up (s : CameraState) (d : ℝ) :
    (yawOp d s).eye = s.eye ∧
    vsub (yawOp d s).target (yawOp d s).eye =
      m3apply (fromRotationM (d * 0.0174532925) (if s.gimbalLock then s.worldUp else s.up))
        (vsub s.target s.eye) ∧
    (yawOp d s).up =
      (if s.gimbalLock then
        m3apply (fromRotationM (d * 0.0174532925) (if s.gimbalLock then s.worldUp else s.up))
          s.up
      else s.up) := by
  refine ⟨rfl, ?_, rfl⟩
  simp only [yawOp, setDirtyS]
  rw [vsub_vadd_left]

/-- C2: with `constrainPitch` enabled, `pitch` and `orbitPitch` either
commit fully -- set `up` to the rotated up, re-derive the moved endpoint
(target for `pitch`, eye for `orbitPitch`) from the fixed point plus the
rotated vector, and raise the dirty flags -- or return early with the whole
state unchanged, and the early return happens exactly when the dot product
of the rotated up with `worldUp`, divided by the degree-to-radian constant
0.0174532925, is below 1. -/
theorem claim_C2_constrained_pitch_commit_or_reject (s : CameraState) (d : ℝ)
    (hc : s.constrainPitch = true) :
    ((vdot (m3apply (fromRotationM (d * 0.0174532925)
          (vcross (vnormalize (vsub s.target s.eye)) (vnormalize s.up))) s.up)
        s.worldUp / 0.0174532925 < 1 → pitchOp d s = s) ∧
     (¬ vdot (m3apply (fromRotationM (d * 0.0174532925)
          (vcross (vnormalize (vsub s.target s.eye)) (vnormalize s.up))) s.up)
        s.worldUp / 0.0174532925 < 1 →
       pitchOp d s =
         { s with
           up := m3apply (fromRotationM (d * 0.0174532925)
             (vcross (vnormalize (vsub s.target s.eye)) (vnormalize s.up))) s.up
           target := vadd s.eye (m3apply (fromRotationM (d * 0.0174532925)
             (vcross (vnormalize (vsub s.target s.eye)) (vnormalize s.up))) (vsub s.target s.eye))
           dirty := true
           viewerDirty := true })) ∧
    ((vdot (m3apply (fromRotationM (d * 0.0174532925)
          (vcross (vnormalize (vsub s.eye s.target)) (vnormalize s.up))) s.up)
        s.worldUp / 0.0174532925 < 1 → orbitPitchOp d s = s) ∧
     (¬ vdot (m3apply (fromRotationM (d * 0.0174532925)
          (vcross (vnormalize (vsub s.eye s.target)) (vnormalize s.up))) s.up)
        s.worldUp / 0.0174532925 < 1 →
       orbitPitchOp d s =
         { s with
           up := m3apply (fromRotationM (d * 0.0174532925)
             (vcross (vnormalize (vsub s.eye s.target)) (vnormalize s.up))) s.up
           eye := vadd s.target (m3apply (fromRotationM (d * 0.0174532925)
             (vcross (vnormalize (vsub s.eye s.target)) (vnormalize s.up))) (vsub s.eye s.target))
           dirty := true
           viewerDirty := true })) := by
  refine ⟨⟨?_, ?_⟩, ⟨?_, ?_⟩⟩ <;> intro hlt <;>
    simp only [pitchOp, orbitPitchOp, setDirtyS]
  · rw [if_pos ⟨hc, hlt⟩]
  · rw [if_neg]
    intro hand
    exact hlt hand.2
  · rw [if_pos ⟨hc, hlt⟩]
  · rw [if_neg]
    intro hand
    exact hlt hand.2

/-- Witness for C2: the freshly constructed camera has `constrainPitch` on,
a pitch of 0 degrees passes the constraint check (the scaled dot product is
about 57.3, not below 1), and the operation commits. -/
theorem claim_C2_constrained_pitch_commit_or_reject_witness :
    baseCam.constrainPitch = true ∧
    ¬ vdot (m3apply (fromRotationM ((0:ℝ) * 0.0174532925)
        (vcross (vnormalize (vsub baseCam.target baseCam.eye)) (vnormalize baseCam.up)))
        baseCam.up) baseCam.worldUp / 0.0174532925 < 1 ∧
    pitchOp 0 baseCam =
      { baseCam with
        up := m3apply (fromRotationM ((0:ℝ) * 0.0174532925)
          (vcross (vnormalize (vsub baseCam.target baseCam.eye)) (vnormalize baseCam.up)))
          baseCam.up
        target := vadd baseCam.eye (m3apply (fromRotationM ((0:ℝ) * 0.0174532925)
          (vcross (vnormalize (vsub baseCam.target baseCam.eye)) (vnormalize baseCam.up)))
          (vsub baseCam.target baseCam.eye))
        dirty := true
        viewerDirty := true } := by
  have hnot : ¬ vdot (m3apply (fromRotationM ((0:ℝ) * 0.0174532925)
      (vcross (vnormalize (vsub baseCam.target baseCam.eye)) (vnormalize baseCam.up)))
      baseCam.up) baseCam.worldUp / 0.0174532925 < 1 := by
    have h0 : (0:ℝ) * 0.0174532925 = 0 := by norm_num
    rw [h0]
    simp only [fromRotationM, Real.cos_zero, Real.sin_zero, rodrigues, m3apply,
      baseCam, initCamera, vdot]
    norm_num
  exact ⟨rfl, hnot,
    (claim_C2_constrained_pitch_commit_or_reject baseCam 0 rfl).1.2 hnot⟩

/-- An unrecognized projection-type token used in concrete scenarios. -/
def fooToken : String := "foo"

/-- C8: setting `projectionType` to the perspective or orthographic token
selects the corresponding pre-constructed strategy; any other token leaves
the whole state unchanged except for appending a console warning, so
subsequent `projectionType` and `projMatrix` reads are as before the
call. -/
theorem claim_C8_projection_type_selection (s : CameraState) (t : String) :
    setProjectionType perspToken s = { s with projection := ProjKind.perspective } ∧
    setProjectionType orthoToken s = { s with projection := ProjKind.orthographic } ∧
    (t ≠ perspToken → t ≠ orthoToken →
      setProjectionType t s = { s with log := s.log ++ [unsupportedMsg t] } ∧
      readProjectionType (setProjectionType t s) = readProjectionType s ∧
      readProjMatrix (setProjectionType t s) = readProjMatrix s ∧
      (setProjectionType t s).projection = s.projection) := by
  refine ⟨?_, ?_, ?_⟩
  · unfold setProjectionType
    rw [if_pos rfl]
  · have hno : orthoToken ≠ perspToken := by decide
    unfold setProjectionType
    rw [if_neg hno, if_pos rfl]
  · intro h1 h2
    unfold setProjectionType
    rw [if_neg h1, if_neg h2]
    exact ⟨rfl, rfl, rfl, rfl⟩

/-- Witness for C8: the token "foo" is unrecognized on the fresh camera;
only the warning log changes and both projection reads are unchanged. -/
theorem claim_C8_projection_type_selection_witness :
    fooToken ≠ perspToken ∧ fooToken ≠ orthoToken ∧
    setProjectionType fooToken baseCam =
      { baseCam with log := baseCam.log ++ [unsupportedMsg fooToken] } ∧
    readProjectionType (setProjectionType fooToken baseCam) = readProjectionType baseCam ∧
    readProjMatrix (setProjectionType fooToken baseCam) = readProjMatrix baseCam ∧
    (setProjectionType fooToken baseCam).projection = baseCam.projection := by
  have h1 : fooToken ≠ perspToken := by decide
  have h2 : fooToken ≠ orthoToken := by decide
  have h := (claim_C8_projection_type_selection baseCam fooToken).2.2 h1 h2
  exact ⟨h1, h2, h.1, h.2.1, h.2.2.1, h.2.2.2⟩

/-- C9 (amended): the `worldScale` setter stores 1.0 for a zero input and
the input itself otherwise, so the stored value is strictly positive for
every nonnegative input, and the camera and viewer are marked dirty; a
negative input, however, is stored unchanged (no clamping to a positive
value happens). -/
theorem claim_C9_world_scale_setter (s : CameraState) (w : ℝ) :
    (w = 0 → (setWorldScale w s).worldScale = 1) ∧
    (w ≠ 0 → (setWorldScale w s).worldScale = w) ∧
    (0 ≤ w → 0 < (setWorldScale w s).worldScale) ∧
    (setWorldScale w s).dirty = true ∧
    (setWorldScale w s).viewerDirty = true := by
  unfold setWorldScale setDirtyS
  by_cases h : w = 0
  · rw [if_pos h]
    exact ⟨fun _ => rfl, fun hne => absurd h hne, fun _ => one_pos, rfl, rfl⟩
  · rw [if_neg h]
    refine ⟨fun h0 => absurd h0 h, fun _ => rfl, fun hge => ?_, rfl, rfl⟩
    exact lt_of_le_of_ne hge (Ne.symm h)

/-- Witness for C9 (amended): a zero input stores 1, the input 2 is stored
as is and dirties the camera. -/
theorem claim_C9_world_scale_setter_witness :
    (setWorldScale 0 baseCam).worldScale = 1 ∧
    (setWorldScale 2 baseCam).worldScale = 2 ∧
    (setWorldScale 2 baseCam).dirty = true :=
  ⟨(claim_C9_world_scale_setter baseCam 0).1 rfl,
   (claim_C9_world_scale_setter baseCam 2).2.1 (by norm_num),
   (claim_C9_world_scale_setter baseCam 2).2.2.2.1⟩

/-- Counterexample for C9: setting `worldScale` to -1 stores -1, which is
not strictly positive, refuting the claim that the stored value is
strictly positive after every set. -/
theorem claim_C9_world_scale_counterexample :
    (setWorldScale (-1) baseCam).worldScale = -1 ∧
    ¬ 0 < (setWorldScale (-1) baseCam).worldScale := by
  have h : (setWorldScale (-1) baseCam).worldScale = -1 := by
    unfold setWorldScale setDirtyS
    rw [if_neg (by norm_num : (-1 : ℝ) ≠ 0)]
  refine ⟨h, ?_⟩
  rw [h]
  norm_num

/-- The three derived world vectors against the stored `worldAxis` array:
right and up always equal their slices, and forward either equals its
slice or is the constructor's `(0, 0, -1)` while the slice holds the
default `(0, 0, 1)`. -/
def axisSlicesOk (s : CameraState) : Prop :=
  s.worldRight = ⟨s.worldAxis.a0, s.worldAxis.a1, s.worldAxis.a2⟩ ∧
  s.worldUp = ⟨s.worldAxis.a3, s.worldAxis.a4, s.worldAxis.a5⟩ ∧
  (s.worldForward = ⟨s.worldAxis.a6, s.worldAxis.a7, s.worldAxis.a8⟩ ∨
    (s.worldForward = ⟨0, 0, -1⟩ ∧ s.worldAxis.a6 = 0 ∧ s.worldAxis.a7 = 0 ∧
      s.worldAxis.a8 = 1))

/-- No public operation other than the `worldAxis` setter touches the
derived world vectors, and the setter re-derives all three slices. -/
theorem axisSlicesOk_applyOp (o : Op) (s : CameraState) (h : axisSlicesOk s) :
    axisSlicesOk (applyOp o s) := by
  cases o with
  | setWorldAxis a => exact ⟨rfl, rfl, Or.inl rfl⟩
  | pitch d =>
      simp only [applyOp, pitchOp, setDirtyS]
      split
      · exact h
      · exact h
  | orbitPitch d =>
      simp only [applyOp, orbitPitchOp, setDirtyS]
      split
      · exact h
      · exact h
  | readViewMatrix =>
      simp only [applyOp, buildOp]
      split
      · exact h
      · exact h
  | readViewNormalMatrix =>
      simp only [applyOp, buildOp]
      split
      · exact h
      · exact h
  | setWorldScale w => exact h
  | setEye v => exact h
  | setTarget v => exact h
  | setUp v => exact h
  | setGimbalLock b => exact h
  | setConstrainPitch b => exact h
  | setProjectionType t =>
      simp only [applyOp, setProjectionType]
      split
      · exact h
      · split
        · exact h
        · exact h
  | orbitYaw d => exact h
  | yaw d => exact h
  | pan p => exact h
  | zoom d => exact h
  | viewFit ab fov => exact h

/-- The slice relation is preserved by arbitrary operation sequences. -/
theorem axisSlicesOk_applyOps (l : List Op) (s : CameraState) (h : axisSlicesOk s) :
    axisSlicesOk (applyOps l s) := by
  induction l generalizing s with
  | nil => exact h
  | cons o rest ih => exact ih (applyOp o s) (axisSlicesOk_applyOp o s h)

/-- C10 (amended): in every reachable state, `worldRight` and `worldUp`
equal `worldAxis[0..2]` and `worldAxis[3..5]`; `worldForward` equals
`worldAxis[6..8]` after every `worldAxis` assignment, but in states still
carrying the constructor's initialization it is `(0, 0, -1)` while
`worldAxis[6..8]` holds `(0, 0, 1)`. -/
theorem claim_C10_world_axis_slices (mb : Aabb) (pm om : Mat4) (vd : Bool)
    (ops : List Op) : axisSlicesOk (applyOps ops (initCamera mb pm om vd)) :=
  axisSlicesOk_applyOps ops _ ⟨rfl, rfl, Or.inr ⟨rfl, rfl, rfl, rfl⟩⟩

/-- Counterexample for C10: immediately after construction `worldForward`
is `(0, 0, -1)` whereas `worldAxis[6..8]` is `(0, 0, 1)`, so the claimed
equality fails in the initial state. -/
theorem claim_C10_world_axis_counterexample :
    ¬ baseCam.worldForward =
      (⟨baseCam.worldAxis.a6, baseCam.worldAxis.a7, baseCam.worldAxis.a8⟩ : Vec3) := by
  intro h
  have hz := congrArg Vec3.z h
  simp [baseCam, initCamera, defaultAxis9] at hz
  norm_num at hz

/-- Evaluation rule for `vnormalize` when the squared length is a known
square. -/
theorem vnormalize_eval (v : Vec3) (r : ℝ) (hr : 0 < r)
    (hsq : v.x ^ 2 + v.y ^ 2 + v.z ^ 2 = r ^ 2) :
    vnormalize v = vscale (1 / r) v := by
  unfold vnormalize
  rw [if_pos (by rw [hsq]; positivity), hsq, Real.sqrt_sq hr.le]

/-- On the freshly constructed camera the normalized (eye - target)
direction is `(0, 0, -1)`. -/
theorem vnormalize_base_view :
    vnormalize (vsub baseCam.eye baseCam.target) = ⟨0, 0, -1⟩ := by
  have hsub : vsub baseCam.eye baseCam.target = ⟨0, 0, -10⟩ := by
    simp only [baseCam, initCamera, vsub]
    norm_num
  rw [hsub, vnormalize_eval ⟨0, 0, -10⟩ 10 (by norm_num) (by norm_num)]
  simp only [vscale]
  norm_num

/-- Adding the zero vector on the left is the identity. -/
theorem vadd_zero_left (v : Vec3) : vadd ⟨0, 0, 0⟩ v = v := by
  cases v
  simp [vadd]

/-- Concrete zoom scenario: from the default frame, `zoom(2)` moves both
endpoints by `2 * normalize(eye - target) = (0, 0, -2)`. -/
theorem zoom2_eval :
    (zoomOp 2 baseCam).eye = ⟨0, 0, -12⟩ ∧ (zoomOp 2 baseCam).target = ⟨0, 0, -2⟩ := by
  constructor
  · show vadd baseCam.eye (vscale 2 (vnormalize (vsub baseCam.eye baseCam.target))) = _
    rw [vnormalize_base_view]
    simp only [baseCam, initCamera, vadd, vscale]
    norm_num
  · show vadd baseCam.target (vscale 2 (vnormalize (vsub baseCam.eye baseCam.target))) = _
    rw [vnormalize_base_view]
    simp only [baseCam, initCamera, vadd, vscale]
    norm_num

/-- Counterexample for C4: from eye (0,0,-10) and target (0,0,0),
`zoom(2)` does not produce eye (0,0,-8) and target (0,0,2); the code
translates along normalize(eye - target) = (0,0,-1), away from the
target. -/
theorem claim_C4_zoom_counterexample :
    ¬ ((zoomOp 2 baseCam).eye = ⟨0, 0, -8⟩ ∧ (zoomOp 2 baseCam).target = ⟨0, 0, 2⟩) := by
  intro h
  have h1 := zoom2_eval.1.symm.trans h.1
  have hz := congrArg Vec3.z h1
  norm_num at hz

/-- C4 (amended): from eye (0,0,-10), target (0,0,0), `zoom(2)` yields
eye (0,0,-12) and target (0,0,-2): both endpoints translate by 2 units
along the normalized (eye - target) direction, which points from the
target toward the eye (-Z here), leaving their difference unchanged. -/
theorem claim_C4_zoom_scenario :
    (zoomOp 2 baseCam).eye = ⟨0, 0, -12⟩ ∧
    (zoomOp 2 baseCam).target = ⟨0, 0, -2⟩ ∧
    vsub (zoomOp 2 baseCam).eye (zoomOp 2 baseCam).target =
      vsub baseCam.eye baseCam.target := by
  refine ⟨zoom2_eval.1, zoom2_eval.2, ?_⟩
  rw [zoom2_eval.1, zoom2_eval.2]
  simp only [baseCam, initCamera, vsub]
  norm_num

/-- Concrete pan scenario: from the default frame, `pan([0,0,5])` adds
`5 * normalize(eye - target) = (0, 0, -5)` to both endpoints. -/
theorem pan5_eval :
    (panOp ⟨0, 0, 5⟩ baseCam).eye = ⟨0, 0, -15⟩ ∧
    (panOp ⟨0, 0, 5⟩ baseCam).target = ⟨0, 0, -5⟩ := by
  have hpan : panOp ⟨0, 0, 5⟩ baseCam = setDirtyS
      { baseCam with
        eye := vadd baseCam.eye (vadd ⟨0, 0, 0⟩
          (vscale 5 (vnormalize (vsub baseCam.eye baseCam.target))))
        target := vadd baseCam.target (vadd ⟨0, 0, 0⟩
          (vscale 5 (vnormalize (vsub baseCam.eye baseCam.target)))) } := by
    simp only [panOp]
    norm_num
  rw [hpan, vnormalize_base_view]
  constructor <;>
    simp only [setDirtyS, vadd_zero_left, baseCam, initCamera, vadd, vscale] <;>
    norm_num

/-- Counterexample for C6: from the default frame, `pan([0,0,5])` does not
move eye to (0,0,-5) and target to (0,0,5); the component-2 contribution
is along normalize(eye - target) = (0,0,-1), away from the target. -/
theorem claim_C6_pan_counterexample :
    ¬ ((panOp ⟨0, 0, 5⟩ baseCam).eye = ⟨0, 0, -5⟩ ∧
       (panOp ⟨0, 0, 5⟩ baseCam).target = ⟨0, 0, 5⟩) := by
  intro h
  have h1 := pan5_eval.1.symm.trans h.1
  have hz := congrArg Vec3.z h1
  norm_num at hz

/-- C6 (amended): from the default frame, `pan([0,0,5])` translates eye
and target by one and the same displacement `(0,0,-5)` (their difference
is unchanged), moving both 5 units along the target-to-eye direction, to
eye (0,0,-15) and target (0,0,-5). -/
theorem claim_C6_pan_scenario :
    (panOp ⟨0, 0, 5⟩ baseCam).eye = ⟨0, 0, -15⟩ ∧
    (panOp ⟨0, 0, 5⟩ baseCam).target = ⟨0, 0, -5⟩ ∧
    vsub (panOp ⟨0, 0, 5⟩ baseCam).eye (panOp ⟨0, 0, 5⟩ baseCam).target =
      vsub baseCam.eye baseCam.target := by
  refine ⟨pan5_eval.1, pan5_eval.2, ?_⟩
  rw [pan5_eval.1, pan5_eval.2]
  simp only [baseCam, initCamera, vsub]
  norm_num

/-- The tangent of 90 times the degree-to-radian constant is greater than
1 in absolute value: 90 * 0.0174532925 lies strictly between pi/4 and
3*pi/4 and differs from pi/2 (pi is irrational), and tan exceeds 1 beyond
pi/4 on one side of the pole and is below -1 on the other. -/
theorem abs_tan_c90_gt_one : 1 < |Real.tan (90 * 0.0174532925)| := by
  have hpi_lo : (3.141592 : ℝ) < Real.pi := Real.pi_gt_d6
  have hpi_hi : Real.pi < 3.141593 := Real.pi_lt_d6
  have hc : (90 : ℝ) * 0.0174532925 = 1.570796325 := by norm_num
  have hne : (90 : ℝ) * 0.0174532925 ≠ Real.pi / 2 := by
    intro h
    have hpi : Real.pi = 3.14159265 := by
      have := h.symm
      nlinarith [this]
    exact irrational_pi ⟨3.14159265, by rw [hpi]; norm_num⟩
  rcases hne.lt_or_lt with hlt | hgt
  · have h1 : Real.tan (Real.pi / 4) < Real.tan (90 * 0.0174532925) := by
      apply Real.tan_lt_tan_of_nonneg_of_lt_pi_div_two (by linarith) hlt
      rw [hc]
      linarith
    rw [Real.tan_pi_div_four] at h1
    calc (1 : ℝ) < Real.tan (90 * 0.0174532925) := h1
      _ ≤ |Real.tan (90 * 0.0174532925)| := le_abs_self _
  · have h1 : Real.tan (90 * 0.0174532925 - Real.pi) < Real.tan (-(Real.pi / 4)) := by
      apply Real.tan_lt_tan_of_lt_of_lt_pi_div_two
      · rw [hc]; linarith
      · linarith
      · rw [hc]; linarith
    rw [Real.tan_neg, Real.tan_pi_div_four, Real.tan_periodic.sub_eq] at h1
    have h2 : Real.tan (90 * 0.0174532925) < -1 := h1
    rw [abs_of_neg (by linarith : Real.tan (90 * 0.0174532925) < 0)]
    linarith

/-- The unit cube bounding box `[-1,-1,-1, 1,1,1]` of the view-fit
scenario. -/
def fitBox : Aabb := ⟨-1, -1, -1, 1, 1, 1⟩

/-- Evaluation of `viewFit([-1,-1,-1,1,1,1], 90)` on the fresh camera:
target becomes the box center (0,0,0) and eye lands at
(0, 0, -|sqrt 12 / tan(90 * 0.0174532925)|) along the pre-fit view
direction (0,0,-1). -/
theorem viewFit90_eval :
    (viewFitOp (some fitBox) (some 90) baseCam).target = ⟨0, 0, 0⟩ ∧
    (viewFitOp (some fitBox) (some 90) baseCam).eye =
      ⟨0, 0, -|Real.sqrt 12 / Real.tan (90 * 0.0174532925)|⟩ := by
  have hfit : viewFitOp (some fitBox) (some 90) baseCam =
      { baseCam with
        target := ⟨0, 0, 0⟩
        eye := vadd ⟨0, 0, 0⟩ (vscale (|Real.sqrt 12 / Real.tan (90 * 0.0174532925)|)
          (vnormalize (vsub baseCam.eye baseCam.target))) } := by
    simp only [viewFitOp, fitBox]
    norm_num
  rw [hfit]
  refine ⟨rfl, ?_⟩
  show vadd ⟨0, 0, 0⟩ (vscale (|Real.sqrt 12 / Real.tan (90 * 0.0174532925)|)
    (vnormalize (vsub baseCam.eye baseCam.target))) = _
  rw [vnormalize_base_view]
  simp only [vadd, vscale]
  norm_num

/-- The square root of 12 is twice the square root of 3. -/
theorem sqrt_twelve : Real.sqrt 12 = 2 * Real.sqrt 3 := by
  rw [show (12 : ℝ) = 2 ^ 2 * 3 by norm_num, Real.sqrt_mul (by positivity),
    Real.sqrt_sq (by norm_num : (0 : ℝ) ≤ 2)]

/-- The fitted eye distance of the scenario is strictly below 2 * sqrt 3,
because the code divides the diagonal by tan of the full 90-degree fit
angle, whose absolute value exceeds 1. -/
theorem viewFit90_sca_lt : |Real.sqrt 12 / Real.tan (90 * 0.0174532925)| <
    2 * Real.sqrt 3 := by
  have hpos : 0 < Real.sqrt 12 := Real.sqrt_pos.mpr (by norm_num)
  have hlt : |Real.sqrt 12 / Real.tan (90 * 0.0174532925)| < Real.sqrt 12 := by
    rw [abs_div, abs_of_nonneg (Real.sqrt_nonneg 12)]
    exact div_lt_self hpos abs_tan_c90_gt_one
  calc |Real.sqrt 12 / Real.tan (90 * 0.0174532925)| < Real.sqrt 12 := hlt
    _ = 2 * Real.sqrt 3 := sqrt_twelve

/-- Counterexample for C5: `viewFit([-1,-1,-1,1,1,1], 90)` does set the
target to (0,0,0), but the eye does not land at distance
2 * sqrt 3 = diagonal / tan(45 degrees) from it: the code divides the
diagonal by tan(90 * 0.0174532925), the tangent of the full fit angle. -/
theorem claim_C5_viewfit_counterexample :
    ¬ ((viewFitOp (some fitBox) (some 90) baseCam).target = ⟨0, 0, 0⟩ ∧
       (viewFitOp (some fitBox) (some 90) baseCam).eye =
         ⟨0, 0, -(2 * Real.sqrt 3)⟩) := by
  intro h
  have he := viewFit90_eval.2.symm.trans h.2
  have hz := congrArg Vec3.z he
  simp only at hz
  have hsca : |Real.sqrt 12 / Real.tan (90 * 0.0174532925)| = 2 * Real.sqrt 3 := by
    linarith
  exact absurd hsca (ne_of_lt viewFit90_sca_lt)

/-- C5 (amended): `viewFit` with bounding box [-1,-1,-1, 1,1,1] and
fitFOV = 90 sets the target to (0,0,0) and places the eye along the
normalized pre-fit (eye - target) direction at distance
|diagonal / tan(fitFOV * 0.0174532925)| -- the tangent of the full fit
angle, not of its half -- which is strictly less than 2 * sqrt 3. -/
theorem claim_C5_viewfit_scenario :
    (viewFitOp (some fitBox) (some 90) baseCam).target = ⟨0, 0, 0⟩ ∧
    (viewFitOp (some fitBox) (some 90) baseCam).eye =
      ⟨0, 0, -|Real.sqrt 12 / Real.tan (90 * 0.0174532925)|⟩ ∧
    |Real.sqrt 12 / Real.tan (90 * 0.0174532925)| < 2 * Real.sqrt 3 :=
  ⟨viewFit90_eval.1, viewFit90_eval.2, viewFit90_sca_lt⟩

/-- The bounding box `[0,0,0, 2,2,2]` used to exhibit the stale view-matrix
read after `viewFit`. -/
def vfBox : Aabb := ⟨0, 0, 0, 2, 2, 2⟩

/-- The eye distance produced by `viewFit` with this box and the default
fit field of view of 45 degrees. -/
noncomputable def sca45 : ℝ := |Real.sqrt 12 / Real.tan (45 * 0.0174532925)|

/-- A read of `viewMatrix` (clearing the dirty flag) followed by a
`viewFit` call: the operation sequence on which `viewFit`'s missing
`_setDirty` becomes observable. -/
noncomputable def staleSeq : CameraState :=
  applyOps [Op.readViewMatrix, Op.viewFit (some vfBox) (some 45)] baseCam

/-- The view-fit distance of the `vfBox` scenario is strictly positive. -/
theorem sca45_pos : 0 < sca45 := by
  have hc : (45 : ℝ) * 0.0174532925 = 0.7853981625 := by norm_num
  have hpi : (3.141592 : ℝ) < Real.pi := Real.pi_gt_d6
  have htan : 0 < Real.tan (45 * 0.0174532925) := by
    apply Real.tan_pos_of_pos_of_lt_pi_div_two
    · rw [hc]; norm_num
    · rw [hc]; linarith
  have hsq : 0 < Real.sqrt 12 := Real.sqrt_pos.mpr (by norm_num)
  exact abs_pos.mpr (ne_of_gt (div_pos hsq htan))

/-- After the read and the `viewFit` call, the target is the box center
(1,1,1), the eye sits at (1, 1, 1 - sca45), and the dirty flag is still
clear: `viewFit` writes the fields directly and never calls `_setDirty`. -/
theorem staleSeq_fields :
    staleSeq.target = ⟨1, 1, 1⟩ ∧ staleSeq.eye = ⟨1, 1, 1 - sca45⟩ ∧
    staleSeq.dirty = false := by
  have hbe : (buildOp baseCam).eye = baseCam.eye := rfl
  have hbt : (buildOp baseCam).target = baseCam.target := rfl
  refine ⟨?_, ?_, rfl⟩
  · show (viewFitOp (some vfBox) (some 45) (buildOp baseCam)).target = _
    simp only [viewFitOp, vfBox, Option.getD]
    norm_num
  · show (viewFitOp (some vfBox) (some 45) (buildOp baseCam)).eye = _
    simp only [viewFitOp, vfBox, Option.getD, hbe, hbt, vnormalize_base_view, sca45]
    simp only [vadd, vscale]
    norm_num
    ring

/-- The normalized cross product of the default up (0,1,0) with the view
basis vector (0,0,-1) is (-1,0,0): the x basis column of the look-at
matrices in the stale-read scenario. -/
theorem x_basis_eval :
    vnormalize (vcross (⟨0, 1, 0⟩ : Vec3) ⟨0, 0, -1⟩) = ⟨-1, 0, 0⟩ := by
  have hcr : vcross (⟨0, 1, 0⟩ : Vec3) ⟨0, 0, -1⟩ = ⟨-1, 0, 0⟩ := by
    simp only [vcross]
    norm_num
  rw [hcr, vnormalize_eval ⟨-1, 0, 0⟩ 1 one_pos (by norm_num)]
  simp only [vscale]
  norm_num

/-- Entry 12 (the x translation) of the matrix the getter returns after the
stale sequence: it is the matrix cached before `viewFit` ran, built from
eye (0,0,-10), and its entry 12 is 0. -/
theorem staleRead_e12 : (readViewMatrix staleSeq).e12 = 0 := by
  have hL : readViewMatrix staleSeq =
      buildViewMatrix baseCam.eye baseCam.target baseCam.up baseCam.worldScale := rfl
  rw [hL]
  show (scaleRowsM baseCam.worldScale (lookAtM baseCam.eye baseCam.target baseCam.up)).e12 = 0
  have hup : baseCam.up = (⟨0, 1, 0⟩ : Vec3) := rfl
  simp only [scaleRowsM, lookAtM, vnormalize_base_view, hup, x_basis_eval]
  simp only [baseCam, initCamera, vdot]
  norm_num

/-- Entry 12 of the matrix that a rebuild from the current (post-viewFit)
eye/target/up/worldScale would produce: 1, not 0. -/
theorem freshBuild_e12 :
    (buildViewMatrix staleSeq.eye staleSeq.target staleSeq.up staleSeq.worldScale).e12 = 1 := by
  have hup : staleSeq.up = (⟨0, 1, 0⟩ : Vec3) := rfl
  have hws : staleSeq.worldScale = 1 := rfl
  obtain ⟨ht, he, _⟩ := staleSeq_fields
  rw [hup, hws, ht, he]
  have hzv : vnormalize (vsub (⟨1, 1, 1 - sca45⟩ : Vec3) ⟨1, 1, 1⟩) = ⟨0, 0, -1⟩ := by
    have hsub : vsub (⟨1, 1, 1 - sca45⟩ : Vec3) ⟨1, 1, 1⟩ = ⟨0, 0, -sca45⟩ := by
      simp only [vsub, Vec3.mk.injEq]
      refine ⟨by ring, by ring, by ring⟩
    rw [hsub, vnormalize_eval ⟨0, 0, -sca45⟩ sca45 sca45_pos (by simp only; ring)]
    simp only [vscale, Vec3.mk.injEq]
    have hne := ne_of_gt sca45_pos
    refine ⟨by ring, by ring, ?_⟩
    field_simp
  show (scaleRowsM 1 (lookAtM ⟨1, 1, 1 - sca45⟩ ⟨1, 1, 1⟩ ⟨0, 1, 0⟩)).e12 = 1
  simp only [scaleRowsM, lookAtM, hzv, x_basis_eval]
  simp only [vdot]
  norm_num

/-- C1 (failing evaluation): after reading `viewMatrix` and then calling
`viewFit([0,0,0,2,2,2], 45)`, the dirty flag is still clear although the
target genuinely moved, and the matrix the getter returns differs from the
matrix a rebuild from the current eye/target/up/worldScale would produce:
the read observes the matrix of the pre-viewFit state, contradicting the
claim that no read ever observes matrices computed from an earlier
state. -/
theorem claim_C1_viewfit_stale_read :
    staleSeq.dirty = false ∧
    staleSeq.target ≠ baseCam.target ∧
    readViewMatrix staleSeq ≠
      buildViewMatrix staleSeq.eye staleSeq.target staleSeq.up staleSeq.worldScale := by
  refine ⟨staleSeq_fields.2.2, ?_, ?_⟩
  · rw [staleSeq_fields.1]
    intro h
    have hx := congrArg Vec3.x h
    simp only [baseCam, initCamera] at hx
    norm_num at hx
  · intro h
    have h12 := congrArg Mat4.e12 h
    rw [staleRead_e12, freshBuild_e12] at h12
    norm_num at h12
